import Mathlib

/-!
Verification of the HealthForm self-update subsystem (`app.py`).

Shallow embedding of the update pipeline: the version comparator
(`_version_tuple`), the manifest handler (`_handle_update_manifest`),
the integrity-verified downloader (`_download_update`), and the staged
self-replacement bootstrap (`_self_replace_if_needed`).  Python machine
state (the filesystem touched by the swap loop, the process argument
vector, module-level name bindings) is made explicit; fallible Python
code is embedded with `Except` / sum-like result types.
-/

/-- `APP_VERSION = "0.1.8"` from app.py line 24. -/
def APP_VERSION : String := "0.1.8"

/-- `APP_NAME = "HealthForm"` from app.py line 23. -/
def APP_NAME : String := "HealthForm"

/-- Python `s.split(".")` on the character list: segments between the
dots, keeping empty segments; the empty string gives `[""]`. -/
def splitDotAux : List Char → List Char → List String
  | [], acc => [String.mk acc.reverse]
  | c :: cs, acc =>
    if c = '.' then String.mk acc.reverse :: splitDotAux cs []
    else splitDotAux cs (c :: acc)

/-- Python `s.split(".")` (app.py line 795). -/
def pySplitDot (s : String) : List String := splitDotAux s.data []

/-- The characters Python `str.strip()` removes: space, tab, newline,
carriage return, vertical tab, form feed. -/
def pySpace (c : Char) : Bool :=
  c = ' ' || c = '\t' || c = '\n' || c = '\r' || c = '\x0b' || c = '\x0c'

/-- Python `s.strip()` (app.py line 647): drop leading and trailing
whitespace. -/
def pyStrip (s : String) : String :=
  String.mk (((s.data.dropWhile pySpace).reverse.dropWhile pySpace).reverse)

/-- Python `s.lower()` (app.py line 722) on ASCII hex digests. -/
def pyLower (s : String) : String := String.mk (s.data.map Char.toLower)

/-- Value of Python `int(num)` for a string of decimal digit characters
(`num.data` all satisfy `Char.isDigit`); `48 = '0'.toNat`. -/
def digitsVal (num : String) : Nat :=
  num.data.foldl (fun acc c => acc * 10 + (c.toNat - 48)) 0

/-- One segment of `_version_tuple` (app.py lines 795-797):
`num = "".join(ch for ch in p if ch.isdigit()); int(num) if num else 0`.
`Char.isDigit` coincides with Python `str.isdigit` on ASCII characters;
the full Unicode behaviour of `isdigit`/`int` — including the
`ValueError` that `int` raises on digit-property characters outside the
decimal category — is modelled by `segValueE` below, of which this is
the decimal fragment. -/
def segValue (p : String) : Nat :=
  let num := String.mk (p.data.filter Char.isDigit)
  if num = "" then 0 else digitsVal num

/-- `_version_tuple` (app.py lines 792-798).  `[0] * (3 - len(parts))`
is empty when `parts` has more than three entries, because Python
multiplies a list by a non-positive count to `[]` just as `Nat`
subtraction truncates at zero.  Exact whenever the input contains no
digit-property character outside the ASCII decimal digits; the full
embedding including the `int` error path is `versionTupleE` below. -/
def versionTuple (s : String) : List Nat :=
  let parts := (pySplitDot s).map segValue
  parts ++ List.replicate (3 - parts.length) 0

/-- Python `str.isdigit` per character: true for the decimal digits
(category Nd) and also for digit-property characters outside Nd such as
the superscript and subscript digits.  The table covers the classes
relevant here — ASCII `0-9`, the Arabic-Indic decimal digits
U+0660-U+0669 (category Nd), and the superscript/subscript digits
U+00B2, U+00B3, U+00B9, U+2070-U+2079, U+2080-U+2089 (digit property
but not decimal); every character of Python's full table behaves like
one of these three classes. -/
def pyIsDigit (c : Char) : Bool :=
  (decide (48 ≤ c.toNat) && decide (c.toNat ≤ 57)) ||
  (decide (0x660 ≤ c.toNat) && decide (c.toNat ≤ 0x669)) ||
  decide (c.toNat = 0xB2) || decide (c.toNat = 0xB3) || decide (c.toNat = 0xB9) ||
  (decide (0x2070 ≤ c.toNat) && decide (c.toNat ≤ 0x2079)) ||
  (decide (0x2080 ≤ c.toNat) && decide (c.toNat ≤ 0x2089))

/-- The characters Python `int` accepts as digits: exactly the decimal
digits (category Nd) of the table above. -/
def pyIsDecDigit (c : Char) : Bool :=
  (decide (48 ≤ c.toNat) && decide (c.toNat ≤ 57)) ||
  (decide (0x660 ≤ c.toNat) && decide (c.toNat ≤ 0x669))

/-- Numeric value of a decimal digit character. -/
def pyDecVal (c : Char) : Nat :=
  if 0x660 ≤ c.toNat then c.toNat - 0x660 else c.toNat - 48

/-- Python `int(num)` on a string of `isdigit`-true characters (no
signs, spaces or underscores can occur here): the base-10 value when
every character is a decimal digit, and a `ValueError` otherwise —
e.g. `int("¹")` raises even though `"¹".isdigit()` is true. -/
def pyInt (num : String) : Except String Nat :=
  if num.data ≠ [] ∧ num.data.all pyIsDecDigit = true then
    Except.ok (num.data.foldl (fun acc c => acc * 10 + pyDecVal c) 0)
  else
    Except.error "ValueError"

/-- One segment of `_version_tuple` (app.py lines 795-797) under the
full `isdigit`/`int` semantics: the `ValueError` path of `int(num)` is
kept. -/
def segValueE (p : String) : Except String Nat :=
  let num := String.mk (p.data.filter pyIsDigit)
  if num = "" then Except.ok 0 else pyInt num

/-- The `for p in s.split("."): parts.append(...)` loop of
`_version_tuple`: segments are evaluated left to right and the first
`ValueError` propagates. -/
def mapSegErr : List String → Except String (List Nat)
  | [] => Except.ok []
  | p :: ps =>
    match segValueE p with
    | Except.error e => Except.error e
    | Except.ok v =>
      match mapSegErr ps with
      | Except.error e => Except.error e
      | Except.ok vs => Except.ok (v :: vs)

/-- `_version_tuple` (app.py lines 792-798) under the full
`isdigit`/`int` semantics, including the `ValueError` raised when a
segment's filtered characters contain a non-decimal digit-property
character.  `versionTuple` above is the fragment of this function on
inputs where that path cannot fire. -/
def versionTupleE (s : String) : Except String (List Nat) :=
  match mapSegErr (pySplitDot s) with
  | Except.error e => Except.error e
  | Except.ok parts => Except.ok (parts ++ List.replicate (3 - parts.length) 0)

/-- `true` when `_version_tuple` returns rather than raises. -/
def parseSucceeds : Except String (List Nat) → Bool
  | Except.ok _ => true
  | Except.error _ => false

/-- Python tuple `<` on integer tuples: lexicographic, a strict prefix
is smaller. -/
def pyTupleLt : List Nat → List Nat → Bool
  | _, [] => false
  | [], _ :: _ => true
  | a :: as_, b :: bs =>
    if a < b then true
    else if b < a then false
    else pyTupleLt as_ bs

/-- Python tuple `<=` on integer tuples, as used by
`self._version_tuple(latest) <= self._version_tuple(APP_VERSION)`
(app.py line 650). -/
def pyTupleLe : List Nat → List Nat → Bool
  | [], _ => true
  | _ :: _, [] => false
  | a :: as_, b :: bs =>
    if a < b then true
    else if b < a then false
    else pyTupleLe as_ bs

/-- A platform object of the release manifest (`data["windows"]` /
`data.get("mac", {})`, app.py line 658).  Fields mirror
`section.get("url")`, `section.get("page")`, `section.get("sha256", "")`:
absence of a JSON key is `none`. -/
structure PlatformSection where
  url : Option String
  page : Option String
  sha256 : Option String
  deriving DecidableEq

/-- The decoded manifest JSON as consumed by `_handle_update_manifest`
(app.py lines 646-663): `latest` and `changelog` read with `.get`
(absent key gives the default), `windows` read with a raw subscript
(absent key raises `KeyError`), `mac` read with `.get("mac", {})`. -/
structure Manifest where
  latest : Option String
  changelog : Option String
  windows : Option PlatformSection
  mac : Option PlatformSection
  deriving DecidableEq

/-- Observable outcome of `_handle_update_manifest` (app.py lines
646-686), ignoring the display-only `silent` flag and dialog layout:
either the up-to-date message path, an uncaught `KeyError` escaping the
method, the "no download URL for your platform" warning, or the update
dialog offering the download. -/
inductive UpdateOutcome where
  | upToDate
  | keyError (key : String)
  | noUrl (latest : String)
  | dialog (latest url : String) (page : Option String) (sha : String)
  deriving DecidableEq

/-- `_handle_update_manifest` (app.py lines 646-663) up to the point
where the update dialog is built.  `plat` is `platform.system().lower()`
(app.py line 657).  `data.get("latest", "").strip()` is
`pyStrip (m.latest.getD "")`; the version gate is line 650; the platform
section is `data["windows"]` on Windows (a `KeyError` when the key is
missing) and `data.get("mac", {})` otherwise.  `if not url` (line 662)
is a truthiness test: both a missing `url` key and an empty `url`
string take the warning branch. -/
def handleUpdateManifest (m : Manifest) (plat : String) : UpdateOutcome :=
  let latest := pyStrip (m.latest.getD "")
  if pyTupleLe (versionTuple latest) (versionTuple APP_VERSION) then
    UpdateOutcome.upToDate
  else
    let sectionOpt : Option PlatformSection :=
      if plat = "windows" then m.windows else some (m.mac.getD ⟨none, none, none⟩)
    match sectionOpt with
    | none => UpdateOutcome.keyError "windows"
    | some s =>
      match s.url with
      | none => UpdateOutcome.noUrl latest
      | some u =>
        if u = "" then UpdateOutcome.noUrl latest
        else UpdateOutcome.dialog latest u s.page (s.sha256.getD "")

/-- `true` exactly when the handler reaches the update dialog that
offers "Open download page" / "Auto-download" (app.py lines 666-686). -/
def offersUpdate : UpdateOutcome → Bool
  | UpdateOutcome.dialog _ _ _ _ => true
  | _ => false

/-- Byte strings are lists of byte values. -/
abbrev Content := List Nat

/-- The streaming loop of `_download_update` (app.py lines 713-719):
each chunk read from the response is appended to the output file
(`f.write(buf)`, first component) and absorbed into the running hash
(`h.update(buf)`, second component). -/
def streamChunks (chunks : List Content) : Content × Content :=
  chunks.foldl (fun acc buf => (acc.1 ++ buf, acc.2 ++ buf)) ([], [])

/-- The verification tail of `_download_update`'s worker (app.py lines
721-723): `digest = h.hexdigest()`; raise on
`expected_sha256 and digest.lower() != expected_sha256.lower()`.
`sha256hex` abstracts `hashlib.sha256(...).hexdigest()` as a function of
the absorbed bytes; a nonempty Python string is truthy.  `Except.ok`
carries the accepted file content handed to the `done` callback. -/
def downloadUpdate (sha256hex : Content → String) (chunks : List Content)
    (expected : String) : Except String Content :=
  let st := streamChunks chunks
  let digest := sha256hex st.2
  if expected ≠ "" ∧ pyLower digest ≠ pyLower expected then
    Except.error ("SHA256 mismatch. Expected " ++ expected ++ ", got " ++ digest)
  else
    Except.ok st.1

/-- The `done` callback offering installation (app.py lines 725-741)
runs only when the worker raised no exception. -/
def installOffered : Except String Content → Bool
  | Except.ok _ => true
  | Except.error _ => false

/-- A filesystem: each path holds a byte string or nothing. -/
abbrev Fs := String → Option Content

/-- Write (create or overwrite) path `p` with `c` (`c = none` deletes). -/
def fsWrite (fs : Fs) (p : String) (c : Option Content) : Fs :=
  fun q => if q = p then c else fs q

/-- `os.replace(src, dst)` (app.py line 164): atomically rename `src`
onto `dst`; `dst` receives the full content of `src` in one indivisible
step and `src` disappears.  There is no intermediate state. -/
def osReplace (fs : Fs) (src dst : String) : Fs :=
  fun q => if q = dst then fs src else if q = src then none else fs q

/-- The temporary sibling `tmp = target.with_suffix(target.suffix + ".tmp")`
(app.py line 162).  `Path.with_suffix` drops the current suffix and
appends the new one, and the new suffix here is the current suffix with
`".tmp"` appended, so the net effect is appending `".tmp"` to the
target path. -/
def tmpOf (target : String) : String := target ++ ".tmp"

/-- Outcome of one iteration of the retry loop (app.py lines 159-167).
`copyFailed junk` : `shutil.copy2(staged, tmp)` raised, possibly after
writing some bytes (`junk`) to the tmp path; the `except` swallows the
exception and `os.replace` of this iteration never runs (same `try`
block).  `replaceFailed` : the copy completed (tmp holds the staged
bytes) but `os.replace` raised; being atomic it left both paths as they
were.  `success` : copy and replace both succeeded and the loop breaks. -/
inductive IterOutcome where
  | copyFailed (junk : Option Content)
  | replaceFailed
  | success
  deriving DecidableEq

/-- One iteration of the swap loop body on filesystem `fs` with staged
binary at `sp` and target path `t`: returns the final filesystem of the
iteration and the list of filesystems observable after each primitive
mutation inside it. -/
def runIter (sp t : String) (fs : Fs) : IterOutcome → Fs × List Fs
  | IterOutcome.copyFailed junk =>
    let fs1 := fsWrite fs (tmpOf t) junk
    (fs1, [fs1])
  | IterOutcome.replaceFailed =>
    let fs1 := fsWrite fs (tmpOf t) (fs sp)
    (fs1, [fs1])
  | IterOutcome.success =>
    let fs1 := fsWrite fs (tmpOf t) (fs sp)
    let fs2 := osReplace fs1 (tmpOf t) t
    (fs2, [fs1, fs2])

/-- Result of the retry loop: final filesystem, every observable
intermediate filesystem, whether the swap succeeded (`break` reached),
and the number of attempts made. -/
structure SwapResult where
  fs : Fs
  observed : List Fs
  succeeded : Bool
  attempts : Nat

/-- The `for _ in range(60)` retry loop of `_self_replace_if_needed`
(app.py lines 159-167), sleeping 0.1 s between failed attempts (up to
about six seconds).  `oracle k` is the environment's behaviour on the
`k`-th attempt (whether and how the OS makes copy or rename fail while
the old process still holds the file).  `fuel` starts at 60; the loop
falls through to the `else` clause when it never `break`s. -/
def swapLoop (sp t : String) (oracle : Nat → IterOutcome) :
    Nat → Nat → Fs → SwapResult
  | 0, _, fs => ⟨fs, [], false, 0⟩
  | fuel + 1, k, fs =>
    match oracle k with
    | IterOutcome.success =>
      let p := runIter sp t fs IterOutcome.success
      ⟨p.1, p.2, true, 1⟩
    | o =>
      let p := runIter sp t fs o
      let r := swapLoop sp t oracle fuel (k + 1) p.1
      ⟨r.fs, p.2 ++ r.observed, r.succeeded, r.attempts + 1⟩

/-- `target_name = args[i + 1]` with the `except` fallback
`Path(sys.executable).with_suffix(".exe").name` (app.py lines 141-145):
the first occurrence of `"--self-replace"` is located and the following
argument taken; if it is missing the fallback name is used. -/
def parseTargetName (argv : List String) (fallbackName : String) : String :=
  match argv.indexOf? "--self-replace" with
  | some i => (argv.get? (i + 1)).getD fallbackName
  | none => fallbackName

/-- How `_self_replace_if_needed` (app.py lines 131-180) ends:
`notHandled` is the early `return False` (line 137); `exited code cmd fs`
is `os._exit(code)` reached after `subprocess.Popen(cmd)` left the
filesystem in state `fs` (lines 170-171 and 174-180). -/
inductive BootResult where
  | notHandled
  | exited (code : Nat) (cmd : List String) (fs : Fs)

/-- `_self_replace_if_needed` (app.py lines 131-180).  `stagedPath` is
`Path(sys.executable).resolve()`, `appDir` its parent directory,
`fallbackName` the `except`-branch target name, `fs0` the filesystem at
entry.  The parsed `--cleanup` value (lines 152-156) is dead code in the
source — it is never read again — and is not modelled.  On success the
relaunch command is `[target]` plus `["--cleanup", staged]` when the
staged file still exists (lines 174-176); on retry exhaustion the
fallback launches the staged binary itself (line 170).  Both branches
end in `os._exit(0)`. -/
def selfReplaceIfNeeded (argv : List String) (stagedPath appDir fallbackName : String)
    (oracle : Nat → IterOutcome) (fs0 : Fs) : BootResult :=
  if "--self-replace" ∈ argv then
    let target := appDir ++ "/" ++ parseTargetName argv fallbackName
    let r := swapLoop stagedPath target oracle 60 0 fs0
    if r.succeeded then
      let cmd := [target] ++ (if (r.fs stagedPath).isSome then ["--cleanup", stagedPath] else [])
      BootResult.exited 0 cmd r.fs
    else
      BootResult.exited 0 [stagedPath] r.fs
  else
    BootResult.notHandled

/-- Every name bound at module level in app.py: the imports of lines
1-18 (`import urllib.request` binds `urllib`; `from pathlib import Path`
binds `Path`; `from tkinter import ...` binds `ttk`, `filedialog`,
`messagebox`), the names bound by both branches of the
`tkinterdnd2` try/except of lines 33-40, the constants of lines 23-28,
the module functions of lines 44-198, the class of line 209 and the
`app` of line 802.  `webbrowser` appears in no import statement of the
file. -/
def moduleGlobals : List String :=
  ["csv", "os", "sys", "json", "time", "shutil", "ctypes", "hashlib",
   "platform", "tempfile", "threading", "subprocess", "urllib", "Path",
   "tk", "ttk", "filedialog", "messagebox",
   "TkinterDnD", "DND_FILES", "DND_AVAILABLE", "BaseTk",
   "APP_NAME", "APP_VERSION", "UPDATE_MANIFEST_URL", "COLOR_BG",
   "_resource_path", "_known_desktop_dir", "_create_or_update_shortcut",
   "_self_replace_if_needed", "_cleanup_if_requested",
   "CsvCombinerGUI", "app"]

/-- Python `page or url` on two optional strings: the first operand if
it is truthy (present and nonempty), otherwise the second. -/
def pyOrStr (a b : Option String) : Option String :=
  match a with
  | some s => if s = "" then b else some s
  | none => b

/-- The `open_page` closure of the update dialog (app.py lines 678-679):
`webbrowser.open(page or url); dlg.destroy()`.  Evaluating the name
`webbrowser` searches the enclosing scopes and then the module globals;
app.py lines 646-686 bind no local of that name, so the call succeeds
only if `"webbrowser"` is a module global, and otherwise raises
`NameError` before anything runs. -/
def open_page (page url : Option String) : Except String (Option String) :=
  if moduleGlobals.contains "webbrowser" then
    Except.ok (pyOrStr page url)
  else
    Except.error "NameError: name webbrowser is not defined"

/-- `true` exactly for the results that reach `os._exit(0)`
(app.py lines 171 and 180). -/
def isExitZero : BootResult → Bool
  | BootResult.exited 0 _ _ => true
  | _ => false

theorem pyTupleLe_eq_not_lt (a b : List Nat) : pyTupleLe a b = !pyTupleLt b a := by
  induction a generalizing b with
  | nil =>
    cases b with
    | nil => rfl
    | cons y ys => rfl
  | cons x xs ih =>
    cases b with
    | nil => rfl
    | cons y ys =>
      simp only [pyTupleLe, pyTupleLt]
      rcases Nat.lt_trichotomy x y with h | h | h
      · simp [h, Nat.not_lt_of_lt h]
      · subst h
        simp [Nat.lt_irrefl, ih]
      · simp [h, Nat.not_lt_of_lt h]

theorem streamChunks_eq (chunks : List Content) :
    streamChunks chunks = (chunks.flatten, chunks.flatten) := by
  suffices h : ∀ a b : Content,
      chunks.foldl (fun acc buf => (acc.1 ++ buf, acc.2 ++ buf)) (a, b) =
        (a ++ chunks.flatten, b ++ chunks.flatten) by
    simpa using h [] []
  induction chunks with
  | nil => intro a b; simp
  | cons c cs ih => intro a b; simp [List.foldl_cons, ih]

theorem tmpOf_ne (t : String) : tmpOf t ≠ t := by
  intro h
  have hl := congrArg String.length h
  simp [tmpOf, String.length_append] at hl
  exact absurd hl (by decide)

theorem fsWrite_self (fs : Fs) (p : String) (c : Option Content) :
    fsWrite fs p c p = c := by
  simp [fsWrite]

theorem fsWrite_other (fs : Fs) (p q : String) (c : Option Content) (h : q ≠ p) :
    fsWrite fs p c q = fs q := by
  simp [fsWrite, h]

theorem runIter_target_staged (sp t : String) (fs : Fs) (o : IterOutcome)
    (hspt : sp ≠ t) (hsptmp : sp ≠ tmpOf t) :
    (runIter sp t fs o).1 sp = fs sp ∧
      ((runIter sp t fs o).1 t = fs t ∨ (runIter sp t fs o).1 t = fs sp) ∧
      (∀ g ∈ (runIter sp t fs o).2, g t = fs t ∨ g t = fs sp) := by
  have htt : t ≠ tmpOf t := (tmpOf_ne t).symm
  cases o with
  | copyFailed junk =>
    refine ⟨fsWrite_other _ _ _ _ hsptmp, Or.inl (fsWrite_other _ _ _ _ htt), ?_⟩
    intro g hg
    simp only [runIter, List.mem_singleton] at hg
    subst hg
    exact Or.inl (fsWrite_other _ _ _ _ htt)
  | replaceFailed =>
    refine ⟨fsWrite_other _ _ _ _ hsptmp, Or.inl (fsWrite_other _ _ _ _ htt), ?_⟩
    intro g hg
    simp only [runIter, List.mem_singleton] at hg
    subst hg
    exact Or.inl (fsWrite_other _ _ _ _ htt)
  | success =>
    have h1 : (fsWrite fs (tmpOf t) (fs sp)) t = fs t := fsWrite_other _ _ _ _ htt
    have h1sp : (fsWrite fs (tmpOf t) (fs sp)) sp = fs sp := fsWrite_other _ _ _ _ hsptmp
    have h1tmp : (fsWrite fs (tmpOf t) (fs sp)) (tmpOf t) = fs sp := fsWrite_self _ _ _
    have h2 : (osReplace (fsWrite fs (tmpOf t) (fs sp)) (tmpOf t) t) t = fs sp := by
      simp [osReplace, h1tmp]
    have h2sp : (osReplace (fsWrite fs (tmpOf t) (fs sp)) (tmpOf t) t) sp = fs sp := by
      simp [osReplace, hspt, hsptmp, h1sp]
    refine ⟨h2sp, Or.inr h2, ?_⟩
    intro g hg
    simp only [runIter, List.mem_cons, List.mem_singleton, List.not_mem_nil, or_false] at hg
    rcases hg with hg | hg
    · subst hg; exact Or.inl h1
    · subst hg; exact Or.inr h2

theorem swapLoop_target_inv (sp t : String) (oracle : Nat → IterOutcome)
    (old staged : Content) (hspt : sp ≠ t) (hsptmp : sp ≠ tmpOf t) :
    ∀ fuel k fs, (fs t = some old ∨ fs t = some staged) → fs sp = some staged →
      ((swapLoop sp t oracle fuel k fs).fs t = some old ∨
        (swapLoop sp t oracle fuel k fs).fs t = some staged) ∧
      (swapLoop sp t oracle fuel k fs).fs sp = some staged ∧
      (∀ g ∈ (swapLoop sp t oracle fuel k fs).observed,
        g t = some old ∨ g t = some staged) := by
  intro fuel
  induction fuel with
  | zero =>
    intro k fs ht hsp
    exact ⟨ht, hsp, by intro g hg; simp [swapLoop] at hg⟩
  | succ n ih =>
    intro k fs ht hsp
    obtain ⟨hgsp, hgt, hobs⟩ := runIter_target_staged sp t fs (oracle k) hspt hsptmp
    have hiterT : (runIter sp t fs (oracle k)).1 t = some old ∨
        (runIter sp t fs (oracle k)).1 t = some staged := by
      rcases hgt with h | h
      · rw [h]; exact ht
      · rw [h, hsp]; exact Or.inr rfl
    have hiterSp : (runIter sp t fs (oracle k)).1 sp = some staged := by
      rw [hgsp]; exact hsp
    have hobs' : ∀ g ∈ (runIter sp t fs (oracle k)).2,
        g t = some old ∨ g t = some staged := by
      intro g hg
      rcases hobs g hg with h | h
      · rw [h]; exact ht
      · rw [h, hsp]; exact Or.inr rfl
    cases ho : oracle k with
    | success =>
      rw [ho] at hiterT hiterSp hobs'
      refine ⟨?_, ?_, ?_⟩
      · simpa [swapLoop, ho] using hiterT
      · simpa [swapLoop, ho] using hiterSp
      · intro g hg
        simp only [swapLoop, ho] at hg
        exact hobs' g hg
    | copyFailed junk =>
      rw [ho] at hiterT hiterSp hobs'
      obtain ⟨rT, rSp, rObs⟩ := ih (k + 1) _ hiterT hiterSp
      refine ⟨?_, ?_, ?_⟩
      · simpa [swapLoop, ho] using rT
      · simpa [swapLoop, ho] using rSp
      · intro g hg
        simp only [swapLoop, ho, List.mem_append] at hg
        rcases hg with hg | hg
        · exact hobs' g hg
        · exact rObs g hg
    | replaceFailed =>
      rw [ho] at hiterT hiterSp hobs'
      obtain ⟨rT, rSp, rObs⟩ := ih (k + 1) _ hiterT hiterSp
      refine ⟨?_, ?_, ?_⟩
      · simpa [swapLoop, ho] using rT
      · simpa [swapLoop, ho] using rSp
      · intro g hg
        simp only [swapLoop, ho, List.mem_append] at hg
        rcases hg with hg | hg
        · exact hobs' g hg
        · exact rObs g hg

/-- C5 (amended): the parsed version has arity `max 3 n` where `n` is
the number of dot-separated segments — strings with fewer than three
segments are padded with zeros to arity 3, but strings with more than
three segments are NOT truncated: all their components are kept. -/
theorem version_tuple_arity (s : String) :
    (versionTuple s).length = max 3 (pySplitDot s).length := by
  simp only [versionTuple, List.length_append, List.length_map, List.length_replicate]
  omega

/-- C5 counterexample: `_version_tuple("1.2.3.4")` has four components,
not three — the claimed truncation to arity 3 does not happen. -/
theorem version_tuple_not_truncated :
    versionTuple "1.2.3.4" = [1, 2, 3, 4] ∧ (versionTuple "1.2.3.4").length ≠ 3 := by
  decide

theorem splitDotAux_chars (l : List Char) :
    ∀ acc, ∀ p ∈ splitDotAux l acc, ∀ c ∈ p.data, c ∈ l ∨ c ∈ acc := by
  induction l with
  | nil =>
    intro acc p hp c hc
    simp only [splitDotAux, List.mem_singleton] at hp
    subst hp
    exact Or.inr (List.mem_reverse.mp hc)
  | cons d ds ih =>
    intro acc p hp c hc
    by_cases hd : d = '.'
    · simp only [splitDotAux, if_pos hd, List.mem_cons] at hp
      rcases hp with rfl | hp
      · exact Or.inr (List.mem_reverse.mp hc)
      · rcases ih [] p hp c hc with h | h
        · exact Or.inl (List.mem_cons_of_mem _ h)
        · exact absurd h (List.not_mem_nil c)
    · simp only [splitDotAux, if_neg hd] at hp
      rcases ih (d :: acc) p hp c hc with h | h
      · exact Or.inl (List.mem_cons_of_mem _ h)
      · rcases List.mem_cons.mp h with rfl | h2
        · exact Or.inl (List.mem_cons_self _ _)
        · exact Or.inr h2

theorem pySplitDot_chars (s : String) :
    ∀ p ∈ pySplitDot s, ∀ c ∈ p.data, c ∈ s.data := by
  intro p hp c hc
  rcases splitDotAux_chars s.data [] p hp c hc with h | h
  · exact h
  · exact absurd h (List.not_mem_nil c)

theorem segValueE_isOk (p : String)
    (h : ∀ c ∈ p.data, pyIsDigit c = true → pyIsDecDigit c = true) :
    ∃ v, segValueE p = Except.ok v := by
  by_cases hz : String.mk (p.data.filter pyIsDigit) = ""
  · exact ⟨0, by simp [segValueE, hz]⟩
  · have hne : p.data.filter pyIsDigit ≠ [] := by
      intro hnil
      exact hz (by rw [hnil])
    have hall : (p.data.filter pyIsDigit).all pyIsDecDigit = true := by
      rw [List.all_eq_true]
      intro c hcmem
      exact h c (List.mem_of_mem_filter hcmem) (List.of_mem_filter hcmem)
    refine ⟨(p.data.filter pyIsDigit).foldl (fun acc c => acc * 10 + pyDecVal c) 0, ?_⟩
    simp only [segValueE]
    rw [if_neg hz]
    simp only [pyInt]
    rw [if_pos ⟨hne, hall⟩]

theorem mapSegErr_ok (l : List String)
    (h : ∀ p ∈ l, ∃ v, segValueE p = Except.ok v) :
    ∃ vs, mapSegErr l = Except.ok vs := by
  induction l with
  | nil => exact ⟨[], rfl⟩
  | cons p ps ih =>
    obtain ⟨v, hv⟩ := h p (List.mem_cons_self _ _)
    obtain ⟨vs, hvs⟩ := ih (fun q hq => h q (List.mem_cons_of_mem _ hq))
    exact ⟨v :: vs, by simp [mapSegErr, hv, hvs]⟩

theorem mapSegErr_zeros (l : List String)
    (h : ∀ p ∈ l, ∀ c ∈ p.data, pyIsDigit c = false) :
    mapSegErr l = Except.ok (List.replicate l.length 0) := by
  induction l with
  | nil => rfl
  | cons p ps ih =>
    have hp : segValueE p = Except.ok 0 := by
      have hf : p.data.filter pyIsDigit = [] := by
        rw [List.filter_eq_nil_iff]
        intro c hc
        simp [h p (List.mem_cons_self _ _) c hc]
      simp [segValueE, hf]
    have hps := ih (fun q hq => h q (List.mem_cons_of_mem _ hq))
    simp [mapSegErr, hp, hps, List.replicate_succ]

/-- C6 counterexample: `_version_tuple("¹")` raises `ValueError` — the
superscript one has the `isdigit` property, so it survives the filter,
and `int("¹")` then raises — refuting "version parsing never raises". -/
theorem version_tuple_raises_superscript :
    versionTupleE "¹" = Except.error "ValueError" := rfl

/-- C6 (amended): version parsing raises only when the input contains a
digit-property character outside the decimal category; on every other
string — in particular every ASCII string — it succeeds, and a fully
malformed string (no digit-property character in any dot-separated
segment) parses to a version whose components are all zero. -/
theorem version_tuple_total_unless_nondecimal :
    (∀ s : String, (∀ c ∈ s.data, pyIsDigit c = true → pyIsDecDigit c = true) →
      parseSucceeds (versionTupleE s) = true) ∧
    (∀ s : String, (∀ p ∈ pySplitDot s, ∀ c ∈ p.data, pyIsDigit c = false) →
      versionTupleE s =
        Except.ok (List.replicate (max 3 (pySplitDot s).length) 0)) := by
  constructor
  · intro s hs
    have h : ∀ p ∈ pySplitDot s, ∃ v, segValueE p = Except.ok v := fun p hp =>
      segValueE_isOk p (fun c hc => hs c (pySplitDot_chars s p hp c hc))
    obtain ⟨vs, hvs⟩ := mapSegErr_ok (pySplitDot s) h
    simp [versionTupleE, hvs, parseSucceeds]
  · intro s hs
    have hz := mapSegErr_zeros (pySplitDot s) hs
    simp only [versionTupleE, hz]
    congr 1
    rw [List.length_replicate, ← List.replicate_add]
    congr 1
    omega

/-- C6 witness: `"1.2.x"` (decimal digits only) parses successfully,
and `"beta.rc"` (no digits at all) parses to all zeros. -/
theorem version_tuple_total_unless_nondecimal_witness :
    parseSucceeds (versionTupleE "1.2.x") = true ∧
    versionTupleE "beta.rc" =
      Except.ok (List.replicate (max 3 (pySplitDot "beta.rc").length) 0) :=
  ⟨version_tuple_total_unless_nondecimal.1 "1.2.x" (by decide),
   version_tuple_total_unless_nondecimal.2 "beta.rc" (by decide)⟩

/-- C7: component comparison is numeric, not string-lexicographic:
`parse("1.2.0") < parse("1.10.0")`, and `parse("1.2") = parse("1.2.0")`
after zero padding. -/
theorem version_compare_numeric :
    pyTupleLt (versionTuple "1.2.0") (versionTuple "1.10.0") = true ∧
    versionTuple "1.2" = versionTuple "1.2.0" := by
  decide

/-- C4: the manifest handler reports up to date exactly when the
manifest version compares less than or equal to the running version
under the Python tuple ordering, and the update dialog is offered only
when the manifest version is strictly greater. -/
theorem update_offer_iff_newer (m : Manifest) (plat : String) :
    (handleUpdateManifest m plat = UpdateOutcome.upToDate ↔
      pyTupleLe (versionTuple (pyStrip (m.latest.getD "")))
        (versionTuple APP_VERSION) = true) ∧
    (offersUpdate (handleUpdateManifest m plat) = true →
      pyTupleLt (versionTuple APP_VERSION)
        (versionTuple (pyStrip (m.latest.getD ""))) = true) := by
  by_cases hle : pyTupleLe (versionTuple (pyStrip (m.latest.getD "")))
      (versionTuple APP_VERSION) = true
  · constructor
    · simp [handleUpdateManifest, hle]
    · intro hoff
      exfalso
      simp [handleUpdateManifest, hle, offersUpdate] at hoff
  · have hle' : pyTupleLe (versionTuple (pyStrip (m.latest.getD "")))
        (versionTuple APP_VERSION) = false := by
      revert hle
      cases pyTupleLe (versionTuple (pyStrip (m.latest.getD "")))
        (versionTuple APP_VERSION) <;> simp
    have hlt : pyTupleLt (versionTuple APP_VERSION)
        (versionTuple (pyStrip (m.latest.getD ""))) = true := by
      have hniff := pyTupleLe_eq_not_lt (versionTuple (pyStrip (m.latest.getD "")))
        (versionTuple APP_VERSION)
      rw [hle'] at hniff
      revert hniff
      cases pyTupleLt (versionTuple APP_VERSION)
        (versionTuple (pyStrip (m.latest.getD ""))) <;> simp
    refine ⟨⟨fun h => ?_, fun h => absurd h (by simp [hle'])⟩, fun _ => hlt⟩
    exfalso
    simp only [handleUpdateManifest, hle', Bool.false_eq_true, if_false] at h
    split at h
    · simp_all
    · split at h
      · simp_all
      · split at h <;> simp_all

/-- C4 witness: a manifest with `latest = "9.9.9"` and a Windows section
offers the dialog and `9.9.9` is strictly newer than the running
`0.1.8`. -/
theorem update_offer_iff_newer_witness :
    pyTupleLt (versionTuple APP_VERSION)
      (versionTuple (pyStrip ((some "9.9.9").getD ""))) = true :=
  (update_offer_iff_newer
      ⟨some "9.9.9", none, some ⟨some "https://x/y.exe", none, some "AB"⟩, none⟩
      "windows").2 (by decide)

/-- C9: on Windows, a manifest with a strictly newer version but no
`"windows"` object makes `_handle_update_manifest` raise an uncaught
`KeyError` at `data["windows"]` rather than reach the "no download URL
for your platform" warning. -/
theorem manifest_missing_windows_keyerror (m : Manifest)
    (hwin : m.windows = none)
    (hnew : pyTupleLe (versionTuple (pyStrip (m.latest.getD "")))
      (versionTuple APP_VERSION) = false) :
    handleUpdateManifest m "windows" = UpdateOutcome.keyError "windows" := by
  simp [handleUpdateManifest, hnew, hwin]

/-- C9 witness: `latest = "9.9.9"` with no platform sections. -/
theorem manifest_missing_windows_keyerror_witness :
    handleUpdateManifest ⟨some "9.9.9", none, none, none⟩ "windows" =
      UpdateOutcome.keyError "windows" :=
  manifest_missing_windows_keyerror ⟨some "9.9.9", none, none, none⟩ rfl (by decide)

/-- C2: the downloaded artifact is accepted — the worker raises nothing
and the `done` callback offering installation runs — precisely when the
expected digest is empty (verification skipped) or the SHA-256 hex
digest of the downloaded bytes equals the expected digest
case-insensitively; the accepted file content is exactly the
concatenation of the streamed chunks, the same bytes the digest was
computed over. -/
theorem download_accept_iff_digest (sha256hex : Content → String)
    (chunks : List Content) (expected : String) :
    (downloadUpdate sha256hex chunks expected = Except.ok chunks.flatten ↔
      (expected = "" ∨ pyLower (sha256hex chunks.flatten) = pyLower expected)) ∧
    (installOffered (downloadUpdate sha256hex chunks expected) = true ↔
      downloadUpdate sha256hex chunks expected = Except.ok chunks.flatten) := by
  by_cases hcond : expected ≠ "" ∧
      pyLower (sha256hex chunks.flatten) ≠ pyLower expected
  · constructor
    · simp only [downloadUpdate, streamChunks_eq, if_pos hcond]
      constructor
      · intro h; exact absurd h (by simp)
      · intro h
        rcases h with h | h
        · exact absurd h hcond.1
        · exact absurd h hcond.2
    · simp [downloadUpdate, streamChunks_eq, if_pos hcond, installOffered]
  · constructor
    · simp only [downloadUpdate, streamChunks_eq, if_neg hcond]
      constructor
      · intro _
        rcases not_and_or.mp hcond with h | h
        · exact Or.inl (not_not.mp h)
        · exact Or.inr (not_not.mp h)
      · intro _; trivial
    · simp [downloadUpdate, streamChunks_eq, if_neg hcond, installOffered]

/-- C10: the `webbrowser` module is bound nowhere at module level, so
the "Open download page" action raises `NameError` on every
invocation. -/
theorem open_page_name_error :
    moduleGlobals.contains "webbrowser" = false ∧
    ∀ page url : Option String,
      open_page page url =
        Except.error "NameError: name webbrowser is not defined" := by
  have h : moduleGlobals.contains "webbrowser" = false := by decide
  refine ⟨h, fun page url => ?_⟩
  simp [open_page, h]
  decide

/-- C1: along any execution of the swap loop — any number of failed
copies (which may leave junk at the tmp sibling), failed atomic renames
(which change nothing), and a final successful copy-plus-rename — every
observable filesystem state has the canonical target path holding
either the full old content or the full staged content, never a
partial write. -/
theorem swap_loop_target_atomic (sp t : String) (oracle : Nat → IterOutcome)
    (fs0 : Fs) (old staged : Content)
    (hspt : sp ≠ t) (hsptmp : sp ≠ tmpOf t)
    (ht : fs0 t = some old) (hsp : fs0 sp = some staged) :
    ∀ g ∈ (swapLoop sp t oracle 60 0 fs0).observed,
      g t = some old ∨ g t = some staged :=
  (swapLoop_target_inv sp t oracle old staged hspt hsptmp 60 0 fs0 (Or.inl ht) hsp).2.2

/-- C1 witness: a concrete run (first attempt succeeds) in which every
observed state holds the old bytes `[0]` or the new bytes `[1]` at the
target. -/
theorem swap_loop_target_atomic_witness :
    ((swapLoop "/d/HealthForm.new.exe" "/d/HealthForm.exe"
        (fun _ => IterOutcome.success) 60 0
        (fun p => if p = "/d/HealthForm.exe" then some [0]
                  else if p = "/d/HealthForm.new.exe" then some [1] else none)).observed.all
      (fun g => (g "/d/HealthForm.exe" == some [0]) ||
        (g "/d/HealthForm.exe" == some [1]))) = true := by
  have h := swap_loop_target_atomic "/d/HealthForm.new.exe" "/d/HealthForm.exe"
    (fun _ => IterOutcome.success)
    (fun p => if p = "/d/HealthForm.exe" then some [0]
              else if p = "/d/HealthForm.new.exe" then some [1] else none)
    [0] [1] (by decide) (by decide) (by decide) (by decide)
  rw [List.all_eq_true]
  intro g hg
  rcases h g hg with h1 | h1 <;> simp [h1]

theorem swapLoop_allfail (sp t : String) (oracle : Nat → IterOutcome) :
    ∀ fuel k fs, (∀ j, j < fuel → oracle (k + j) ≠ IterOutcome.success) →
      (swapLoop sp t oracle fuel k fs).succeeded = false ∧
      (swapLoop sp t oracle fuel k fs).attempts = fuel ∧
      (swapLoop sp t oracle fuel k fs).fs t = fs t := by
  intro fuel
  induction fuel with
  | zero => intro k fs _; exact ⟨rfl, rfl, rfl⟩
  | succ n ih =>
    intro k fs h
    have h0 : oracle k ≠ IterOutcome.success := by
      have := h 0 (Nat.succ_pos n)
      simpa using this
    have hshift : ∀ j, j < n → oracle (k + 1 + j) ≠ IterOutcome.success := by
      intro j hj
      have hx := h (j + 1) (Nat.succ_lt_succ hj)
      have e : k + (j + 1) = k + 1 + j := by omega
      rwa [e] at hx
    cases ho : oracle k with
    | success => exact absurd ho h0
    | copyFailed junk =>
      obtain ⟨h1, h2, h3⟩ :=
        ih (k + 1) (runIter sp t fs (IterOutcome.copyFailed junk)).1 hshift
      have hft : (runIter sp t fs (IterOutcome.copyFailed junk)).1 t = fs t :=
        fsWrite_other _ _ _ _ (tmpOf_ne t).symm
      refine ⟨?_, ?_, ?_⟩ <;> simp [swapLoop, ho, h1, h2, h3, hft]
    | replaceFailed =>
      obtain ⟨h1, h2, h3⟩ :=
        ih (k + 1) (runIter sp t fs IterOutcome.replaceFailed).1 hshift
      have hft : (runIter sp t fs IterOutcome.replaceFailed).1 t = fs t :=
        fsWrite_other _ _ _ _ (tmpOf_ne t).symm
      refine ⟨?_, ?_, ?_⟩ <;> simp [swapLoop, ho, h1, h2, h3, hft]

/-- C3: when every one of the 60 attempts fails, the loop makes exactly
60 attempts (with a fixed 0.1 s sleep between them in the source), the
bootstrap falls back to launching the staged binary itself, exits with
code 0, and the canonical target path is left exactly as it was. -/
theorem swap_retry_exhaustion_fallback (argv : List String)
    (stagedPath appDir fallbackName : String) (oracle : Nat → IterOutcome)
    (fs0 : Fs) (hmem : "--self-replace" ∈ argv)
    (hfail : ∀ k, k < 60 → oracle k ≠ IterOutcome.success) :
    (swapLoop stagedPath (appDir ++ "/" ++ parseTargetName argv fallbackName)
        oracle 60 0 fs0).attempts = 60 ∧
    selfReplaceIfNeeded argv stagedPath appDir fallbackName oracle fs0 =
      BootResult.exited 0 [stagedPath]
        (swapLoop stagedPath (appDir ++ "/" ++ parseTargetName argv fallbackName)
          oracle 60 0 fs0).fs ∧
    (swapLoop stagedPath (appDir ++ "/" ++ parseTargetName argv fallbackName)
        oracle 60 0 fs0).fs (appDir ++ "/" ++ parseTargetName argv fallbackName) =
      fs0 (appDir ++ "/" ++ parseTargetName argv fallbackName) := by
  have hfail' : ∀ j, j < 60 → oracle (0 + j) ≠ IterOutcome.success := by
    intro j hj
    simpa using hfail j hj
  obtain ⟨h1, h2, h3⟩ := swapLoop_allfail stagedPath
    (appDir ++ "/" ++ parseTargetName argv fallbackName) oracle 60 0 fs0 hfail'
  refine ⟨h2, ?_, h3⟩
  simp only [selfReplaceIfNeeded, if_pos hmem, h1, Bool.false_eq_true, if_false]

/-- C3 witness: every attempt fails by a locked rename; the fallback
launches the staged path and the (empty) filesystem is unchanged at the
target. -/
theorem swap_retry_exhaustion_fallback_witness :
    (swapLoop "/d/s.exe" ("/d" ++ "/" ++ parseTargetName ["--self-replace", "a.exe"] "f.exe")
        (fun _ => IterOutcome.replaceFailed) 60 0 (fun _ => none)).attempts = 60 ∧
    selfReplaceIfNeeded ["--self-replace", "a.exe"] "/d/s.exe" "/d" "f.exe"
        (fun _ => IterOutcome.replaceFailed) (fun _ => none) =
      BootResult.exited 0 ["/d/s.exe"]
        (swapLoop "/d/s.exe" ("/d" ++ "/" ++ parseTargetName ["--self-replace", "a.exe"] "f.exe")
          (fun _ => IterOutcome.replaceFailed) 60 0 (fun _ => none)).fs ∧
    (swapLoop "/d/s.exe" ("/d" ++ "/" ++ parseTargetName ["--self-replace", "a.exe"] "f.exe")
        (fun _ => IterOutcome.replaceFailed) 60 0 (fun _ => none)).fs
        ("/d" ++ "/" ++ parseTargetName ["--self-replace", "a.exe"] "f.exe") =
      (fun _ => (none : Option Content)) ("/d" ++ "/" ++ parseTargetName ["--self-replace", "a.exe"] "f.exe") :=
  swap_retry_exhaustion_fallback ["--self-replace", "a.exe"] "/d/s.exe" "/d" "f.exe"
    (fun _ => IterOutcome.replaceFailed) (fun _ => none) (by decide) (by decide)

/-- C8: the bootstrap returns normally exactly when `"--self-replace"`
is absent from the argument vector; whenever it is present the function
ends in `os._exit(0)` — after a successful swap or after retry
exhaustion — so a staged process never reaches the GUI construction
that follows the bootstrap call. -/
theorem self_replace_exit_behavior (argv : List String)
    (stagedPath appDir fallbackName : String) (oracle : Nat → IterOutcome)
    (fs0 : Fs) :
    (selfReplaceIfNeeded argv stagedPath appDir fallbackName oracle fs0 =
        BootResult.notHandled ↔ "--self-replace" ∉ argv) ∧
    ("--self-replace" ∈ argv →
      isExitZero (selfReplaceIfNeeded argv stagedPath appDir fallbackName oracle fs0) = true) := by
  by_cases hm : "--self-replace" ∈ argv
  · constructor
    · constructor
      · intro h
        exfalso
        rw [selfReplaceIfNeeded, if_pos hm] at h
        by_cases hs : (swapLoop stagedPath
            (appDir ++ "/" ++ parseTargetName argv fallbackName) oracle 60 0 fs0).succeeded
        · simp only [hs, if_true] at h
          exact BootResult.noConfusion h
        · simp only [hs, Bool.false_eq_true, if_false] at h
          exact BootResult.noConfusion h
      · intro h; exact absurd hm h
    · intro _
      rw [selfReplaceIfNeeded, if_pos hm]
      by_cases hs : (swapLoop stagedPath
          (appDir ++ "/" ++ parseTargetName argv fallbackName) oracle 60 0 fs0).succeeded
      · simp only [hs, if_true]
        rfl
      · simp only [hs, Bool.false_eq_true, if_false]
        rfl
  · refine ⟨⟨fun _ => hm, fun _ => ?_⟩, fun h => absurd h hm⟩
    rw [selfReplaceIfNeeded, if_neg hm]

/-- C8 witness: with `"--self-replace"` present the bootstrap exits
with code 0. -/
theorem self_replace_exit_behavior_witness :
    isExitZero (selfReplaceIfNeeded ["--self-replace", "a.exe"] "/d/s.exe" "/d" "f.exe"
      (fun _ => IterOutcome.success) (fun _ => none)) = true :=
  (self_replace_exit_behavior ["--self-replace", "a.exe"] "/d/s.exe" "/d" "f.exe"
    (fun _ => IterOutcome.success) (fun _ => none)).2 (by decide)
